import Mathlib

/-!
Verification of the FF-INFO-BOT repository (single source file `app.py`)
against its natural-language specification.

The development shallowly embeds the Python source:
  * JSON / Python runtime values are modelled by the inductive `Value`
    (JSON numbers are modelled as integers; Python `bool` is kept separate
    because `isinstance(True, int)` holds and `True == 1` in Python).
  * Dictionary access (`d[k]`, `d.get(k, default)`) is modelled on
    association lists; an access that would raise in Python
    (`KeyError` / `AttributeError` / `TypeError`) is modelled by `none`.
  * The formatter functions `format_timestamp`, `escape_markdown` and
    `format_items` are translated directly from `app.py`.
  * `datetime.fromtimestamp` is modelled at UTC (the civil-from-days
    calendar algorithm) and `datetime.strptime` for the one format string
    used by the source, `%d/%m/%Y : %I:%M:%S %p`, following CPython's
    `_strptime` field patterns; both end with the `datetime` constructor's
    field validation (MINYEAR = 1, MAXYEAR = 9999, day within month, ...).
  * The `!get` command handler is modelled as a pure function from the
    invocation context (allow-list, channel, uid) and the fetch outcome to
    the list of message actions it performs.
-/

set_option linter.unusedVariables false

/-- Untyped Python/JSON runtime value, as produced by `response.json()`.
JSON numbers are modelled as integers. -/
inductive Value where
  | null
  | bool (b : Bool)
  | int (n : Int)
  | str (s : String)
  | list (l : List Value)
  | dict (d : List (String × Value))
deriving Repr

/-- Python truthiness (`bool(v)`): `None`, `False`, `0`, `""`, `[]`, `{}`
are falsy, everything else is truthy. -/
def truthy : Value → Bool
  | .null => false
  | .bool b => b
  | .int n => n != 0
  | .str s => s != ""
  | .list l => !l.isEmpty
  | .dict d => !d.isEmpty

mutual

/-- Python `str(v)` for the modelled values (`str` of a container equals its
`repr`; `str(None) = "None"`, `str(True) = "True"`). -/
def pyStr : Value → String
  | .str s => s
  | v => pyRepr v

/-- Python `repr(v)` for the modelled values.  String `repr` is simplified to
plain quoting (the repository never feeds quote or escape characters through
container rendering). -/
def pyRepr : Value → String
  | .null => "None"
  | .bool b => if b then "True" else "False"
  | .int n => toString n
  | .str s => "\x27" ++ s ++ "\x27"
  | .list l => "[" ++ pyReprList l ++ "]"
  | .dict d => "\x7b" ++ pyReprDict d ++ "\x7d"

/-- Comma-separated `repr` of list elements. -/
def pyReprList : List Value → String
  | [] => ""
  | [v] => pyRepr v
  | v :: rest => pyRepr v ++ ", " ++ pyReprList rest

/-- Comma-separated `repr` of dict entries. -/
def pyReprDict : List (String × Value) → String
  | [] => ""
  | [(k, v)] => "\x27" ++ k ++ "\x27: " ++ pyRepr v
  | (k, v) :: rest => "\x27" ++ k ++ "\x27: " ++ pyRepr v ++ ", " ++ pyReprDict rest

end

/-- Lookup of a key in a modelled dictionary (first binding wins, as in a
Python dict, whose keys are unique). -/
def dictLookup (d : List (String × Value)) (k : String) : Option Value :=
  (d.find? (fun p => p.1 == k)).map (fun p => p.2)

/-- Python `v.get(k, default)` when `v` is known to be a dict. -/
def pyGetD (d : List (String × Value)) (k : String) (default : Value) : Value :=
  (dictLookup d k).getD default

/-- Python `v.get(k, default)` on an arbitrary value: raises
`AttributeError` (modelled by `none`) when `v` is not a dict. -/
def pyGet (v : Value) (k : String) (default : Value) : Option Value :=
  match v with
  | .dict d => some (pyGetD d k default)
  | _ => none

/-- Python subscription `v[k]`: `KeyError` on a missing key and
`TypeError` on a non-dict are both modelled by `none`. -/
def pySubscript (v : Value) (k : String) : Option Value :=
  match v with
  | .dict d => dictLookup d k
  | _ => none

/-- Value of `v` if it is a dict, `none` otherwise. -/
def asDict : Value → Option (List (String × Value))
  | .dict d => some d
  | _ => none

/-- Python `a or b` specialised to strings: `a` if non-empty, else `b`. -/
def pyOr (a b : String) : String :=
  if a == "" then b else a

/-- Python `v == 1` (source line 171, `pet_info.get('Equipped?', 0) == 1`):
numeric cross-type equality means `True == 1` also holds. -/
def pyEqOne : Value → Bool
  | .int n => n == 1
  | .bool b => b
  | _ => false

/-- List of characters escaped by `escape_markdown` (source lines 73-74). -/
def markdown_chars : List Char :=
  "_*[]()~`>#+-=|\x7b\x7d.!".data

/-- Translation of `escape_markdown` (source lines 72-75): prefix a backslash
to every character of `markdown_chars`, leave other characters alone.
The Python function first applies `str(text)`; it is modelled here on the
resulting string. -/
def escape_markdown (text : String) : String :=
  String.join (text.data.map (fun char =>
    if markdown_chars.contains char then "\\".push char else String.singleton char))

/-- Display line built for one equipped item by `format_items`
(source line 82): `KeyError` on either subscription is modelled by `none`. -/
def itemLine (item : Value) : Option String := do
  let id ← pySubscript item "Items ID"
  let icon ← pySubscript item "Items Icon"
  pure ("[" ++ pyStr id ++ "](" ++ pyStr icon ++ ")")

/-- Sequential rendering of the item lines consumed by `"\\n".join`
(source lines 81-84); the first raising item aborts the whole call. -/
def itemLines : List Value → Option (List String)
  | [] => some []
  | item :: rest => do
    let line ← itemLine item
    let lines ← itemLines rest
    pure (line :: lines)

/-- Translation of `format_items` (source lines 78-84).  A falsy `items`
value yields `"N/A"`; a truthy list is rendered one line per item; a truthy
non-list would raise (`TypeError` while iterating or subscripting), modelled
by `none`, as is a `KeyError` inside `itemLine`. -/
def format_items (items : Value) (category : String) : Option String :=
  if truthy items = false then some "N/A"
  else match items with
    | .list l => (itemLines l).map (fun ls => String.intercalate "\n" ls)
    | _ => none

example : escape_markdown "a_b" = "a\\_b" := by decide
example : escape_markdown "N/A" = "N/A" := by decide
example : format_items (Value.list []) "outfit" = some "N/A" := by decide
example : format_items (Value.dict []) "outfit" = some "N/A" := by decide
example : format_items (Value.list [Value.dict []]) "outfit" = none := by decide
example :
    format_items (Value.list [Value.dict [("Items ID", Value.int 7), ("Items Icon", Value.str "u")]]) "w"
      = some "[7](u)" := by decide

/-- Broken-down date-time, the model of a Python `datetime` object. -/
structure DateTime where
  year : Nat
  month : Nat
  day : Nat
  hour : Nat
  minute : Nat
  second : Nat
deriving Repr, DecidableEq

/-- Gregorian leap-year test. -/
def isLeap (y : Nat) : Bool :=
  (y % 4 == 0 && y % 100 != 0) || y % 400 == 0

/-- Length of a month (1..12) in year `y`. -/
def daysInMonth (y m : Nat) : Nat :=
  if m == 2 then (if isLeap y then 29 else 28)
  else if m == 4 || m == 6 || m == 9 || m == 11 then 30
  else 31

/-- Field invariant enforced by the `datetime` constructor:
`MINYEAR = 1 <= year <= MAXYEAR = 9999`, month in 1..12, day within the
month, and in-range time fields. -/
def dtValid (dt : DateTime) : Bool :=
  1 ≤ dt.year && dt.year ≤ 9999 &&
  1 ≤ dt.month && dt.month ≤ 12 &&
  1 ≤ dt.day && dt.day ≤ daysInMonth dt.year dt.month &&
  dt.hour ≤ 23 && dt.minute ≤ 59 && dt.second ≤ 59

/-- Proleptic-Gregorian civil date from a count of days since 1970-01-01
(standard civil-from-days algorithm).  Returns `(year, month, day)`; the
year may fall outside the `datetime` range and is checked by the caller. -/
def civilFromDays (days : Int) : Int × Nat × Nat :=
  let z : Int := days + 719468
  let era : Int := z.fdiv 146097
  let doe : Nat := (z - era * 146097).toNat
  let yoe : Nat := (doe - doe / 1460 + doe / 36524 - doe / 146096) / 365
  let doy : Nat := doe - (365 * yoe + yoe / 4 - yoe / 100)
  let mp : Nat := (5 * doy + 2) / 153
  let d : Nat := doy - (153 * mp + 2) / 5 + 1
  let m : Nat := if mp < 10 then mp + 3 else mp - 9
  (era * 400 + yoe + (if m ≤ 2 then 1 else 0), m, d)

/-- Model of `datetime.fromtimestamp(n)` at UTC for an integral epoch
second count.  An out-of-range timestamp (outside year 1..9999) raises in
Python (`OSError` / `OverflowError` / `ValueError`, all caught by
`format_timestamp`), modelled by `none` via the `dtValid` check. -/
def fromtimestamp (n : Int) : Option DateTime :=
  let days : Int := n.fdiv 86400
  let sod : Nat := (n - 86400 * days).toNat
  let c := civilFromDays days
  let dt : DateTime :=
    { year := c.1.toNat, month := c.2.1, day := c.2.2,
      hour := sod / 3600, minute := sod % 3600 / 60, second := sod % 60 }
  if dtValid dt then some dt else none

/-- English month names, used by both `%B` rendering and nothing else
(the C / en_US locale of the deployment). -/
def monthNames : List String :=
  ["January", "February", "March", "April", "May", "June", "July",
   "August", "September", "October", "November", "December"]

/-- Name of month `m` (1..12). -/
def monthName (m : Nat) : String :=
  monthNames.getD (m - 1) ""

/-- Zero-padded two-digit rendering (`%d`, `%H`, `%M`, `%S`). -/
def pad2 (n : Nat) : String :=
  if n < 10 then "0" ++ toString n else toString n

/-- Zero-padded four-digit rendering (`%Y`, as documented for CPython's
`datetime.strftime`). -/
def pad4 (n : Nat) : String :=
  if n < 10 then "000" ++ toString n
  else if n < 100 then "00" ++ toString n
  else if n < 1000 then "0" ++ toString n
  else toString n

/-- Rendering of `strftime('%d %B %Y %H:%M:%S')` (source lines 62 and 65). -/
def strftimeOut (dt : DateTime) : String :=
  pad2 dt.day ++ " " ++ monthName dt.month ++ " " ++ pad4 dt.year ++ " " ++
  pad2 dt.hour ++ ":" ++ pad2 dt.minute ++ ":" ++ pad2 dt.second

/-- Whitespace characters matched by the regex class `\s` (ASCII part;
CPython's `_strptime` turns each literal whitespace run of the format into
`\s+`). -/
def isWs (c : Char) : Bool :=
  c == ' ' || c == '\t' || c == '\n' || c == '\x0b' || c == '\x0c' || c == '\x0d'

/-- Numeric value of a digit run. -/
def digitsVal (l : List Char) : Nat :=
  l.foldl (fun acc c => acc * 10 + (c.toNat - 48)) 0

/-- Splits a maximal leading digit run from the input.  Because every
character following a numeric directive in the format
`%d/%m/%Y : %I:%M:%S %p` is a non-digit, CPython's regex alternation
accepts exactly the inputs where the maximal run has the directive's
length and range. -/
def takeDigits (l : List Char) : List Char × List Char :=
  (l.takeWhile Char.isDigit, l.dropWhile Char.isDigit)

/-- Parses a 1-or-2-digit field in `lo..hi` (the `%d`, `%m`, `%I`, `%M`,
`%S` patterns), returning the value and the rest of the input. -/
def parseNum2 (lo hi : Nat) (l : List Char) : Option (Nat × List Char) :=
  let (run, rest) := takeDigits l
  if 1 ≤ run.length ∧ run.length ≤ 2 ∧ lo ≤ digitsVal run ∧ digitsVal run ≤ hi then
    some (digitsVal run, rest)
  else none

/-- Parses the exactly-four-digit `%Y` field. -/
def parseYear4 (l : List Char) : Option (Nat × List Char) :=
  let (run, rest) := takeDigits l
  if run.length = 4 then some (digitsVal run, rest) else none

/-- Consumes one literal character. -/
def parseLit (c : Char) : List Char → Option (List Char)
  | x :: rest => if x == c then some rest else none
  | [] => none

/-- Consumes one-or-more whitespace characters (a `\s+` group). -/
def parseWs : List Char → Option (List Char)
  | x :: rest => if isWs x then some (rest.dropWhile isWs) else none
  | [] => none

/-- Parses the case-insensitive `%p` field; `true` means PM. -/
def parseAmPm : List Char → Option (Bool × List Char)
  | a :: b :: rest =>
    if (a == 'A' || a == 'a') && (b == 'M' || b == 'm') then some (false, rest)
    else if (a == 'P' || a == 'p') && (b == 'M' || b == 'm') then some (true, rest)
    else none
  | _ => none

/-- CPython 12-hour to 24-hour conversion for `%I` with `%p`. -/
def hour24 (i : Nat) (pm : Bool) : Nat :=
  if pm then (if i = 12 then 12 else i + 12)
  else (if i = 12 then 0 else i)

/-- Field parsing of `datetime.strptime(s, '%d/%m/%Y : %I:%M:%S %p')`
(source line 64): the field patterns of CPython's `_strptime` and the
full-input match requirement, without the constructor validation. -/
def strptimeRaw (s : String) : Option DateTime := do
  let l := s.data
  let (d, l) ← parseNum2 1 31 l
  let l ← parseLit '/' l
  let (m, l) ← parseNum2 1 12 l
  let l ← parseLit '/' l
  let (y, l) ← parseYear4 l
  let l ← parseWs l
  let l ← parseLit ':' l
  let l ← parseWs l
  let (i, l) ← parseNum2 1 12 l
  let l ← parseLit ':' l
  let (mi, l) ← parseNum2 0 59 l
  let l ← parseLit ':' l
  let (se, l) ← parseNum2 0 59 l
  let l ← parseWs l
  let (pm, l) ← parseAmPm l
  if l.isEmpty = false then none
  else
    pure { year := y, month := m, day := d,
           hour := hour24 i pm, minute := mi, second := se }

/-- Model of `datetime.strptime(s, '%d/%m/%Y : %I:%M:%S %p')`: the regex
match of `strptimeRaw` followed by the `datetime` constructor validation
(which rejects for example day 31 in a 30-day month or year 0000). -/
def strptimeFF (s : String) : Option DateTime :=
  (strptimeRaw s).bind (fun dt => if dtValid dt then some dt else none)

/-- Translation of `format_timestamp` (source lines 59-69).
`isinstance(timestamp, (int, float))` also accepts Python booleans
(`bool` is a subclass of `int`, with `True` converting as 1); every other
shape, and any exception raised on either conversion path, yields the
literal `"Not Available"`. -/
def format_timestamp (timestamp : Value) : String :=
  match timestamp with
  | .int n =>
    match fromtimestamp n with
    | some dt => strftimeOut dt
    | none => "Not Available"
  | .bool b =>
    match fromtimestamp (if b then 1 else 0) with
    | some dt => strftimeOut dt
    | none => "Not Available"
  | .str s =>
    match strptimeFF s with
    | some dt => strftimeOut dt
    | none => "Not Available"
  | _ => "Not Available"

example : format_timestamp (Value.int 0) = "01 January 1970 00:00:00" := by decide
example : format_timestamp (Value.int 1722778962) = "04 August 2024 13:42:42" := by decide

example : format_timestamp (Value.str "04/08/2024 : 01:42:42 PM") = "04 August 2024 13:42:42" := by decide
example : format_timestamp (Value.str "4/8/2024 : 12:05:07 am") = "04 August 2024 00:05:07" := by decide
example : format_timestamp (Value.str "31/02/2020 : 01:00:00 AM") = "Not Available" := by decide
example : format_timestamp (Value.str "04/08/2024") = "Not Available" := by decide
example : format_timestamp Value.null = "Not Available" := by decide
example : format_timestamp (Value.int 99999999999999) = "Not Available" := by decide

/-- Outcome of the outbound HTTP GET performed by `get_profile_info`
(source lines 47-56): either a parsed JSON document, or one of the failure
kinds — a non-success HTTP status (`raise_for_status`), a transport error,
or a body that is not valid JSON. -/
inductive FetchOutcome where
  | success (v : Value)
  | httpError (status : Nat)
  | transportError
  | malformedJson
deriving Repr

/-- Translation of `get_profile_info` (source lines 47-56): every failure
kind is caught by the bare `except` and collapsed to `None`; a success
returns the parsed document. -/
def get_profile_info : FetchOutcome → Option Value
  | .success v => some v
  | .httpError _ => none
  | .transportError => none
  | .malformedJson => none

/-- One named field of the rich message (`embed.add_field`). -/
structure EmbedField where
  name : String
  value : String
  inl : Bool
deriving Repr

/-- The rich message built by the handler (`discord.Embed`, source
lines 127-191). -/
structure Embed where
  title : String
  color : Nat
  url : String
  thumbnail : Option String
  image : Option String
  fields : List EmbedField
  footerText : String
  footerIcon : String
deriving Repr

/-- Option-valued data extracted from the profile document by the handler
before/while building the embed.  Every component that Python obtains via a
`.get` on a possibly-non-dict value, an item subscription, or a conditional
block is extracted here; `buildEmbed` then assembles the message from these
parts and the (dict) document itself. -/
structure ProfileParts where
  pd : List (String × Value)
  outfitRaw : String
  weaponRaw : String
  skills : Value
  petData : Option (Value × Value × Value × Value × Value)
  guildName : Value
  guildID : Value
  guildLevel : Value
  guildMember : Value
  guildCapacity : Value
deriving Repr

/-- Extraction phase of the handler's compose step (source lines 119-124,
155-159 for the `.get` calls that can raise, 164-167 for the item lists, and
171-176 for the pet block, whose five `.get` calls run only when
`pet_info.get('Equipped?', 0) == 1`).  `none` models an uncaught exception
inside the handler. -/
def parseProfile (profile_data : Value) : Option ProfileParts :=
  (asDict profile_data).bind fun pd =>
  let guild_info := pyGetD pd "Guild Information" (Value.dict [])
  (pyGet guild_info "LeaderInfo" (Value.dict [])).bind fun _leader_info =>
  let pet_info := pyGetD pd "Pet Information" (Value.dict [])
  let equipped_items := pyGetD pd "Equipped Items" (Value.dict [])
  (pyGet equipped_items "EquippedOutfit" (Value.list [])).bind fun outfit_items =>
  (pyGet equipped_items "EquippedWeapon" (Value.list [])).bind fun weapon_items =>
  (format_items outfit_items "outfit").bind fun outfitRaw =>
  (format_items weapon_items "weapon").bind fun weaponRaw =>
  (pyGet equipped_items "EquippedSkills" (Value.str "N/A")).bind fun skills =>
  (pyGet pet_info "Equipped?" (Value.int 0)).bind fun petFlag =>
  (if pyEqOne petFlag then
     (pyGet pet_info "PetName" (Value.str "N/A")).bind fun petName =>
     (pyGet pet_info "PetLevel" (Value.str "N/A")).bind fun petLevel =>
     (pyGet pet_info "PetEXP" (Value.str "N/A")).bind fun petEXP =>
     (pyGet pet_info "SkinID" (Value.str "N/A")).bind fun skinIdShown =>
     (pyGet pet_info "SkinID" (Value.str "")).bind fun skinIdLink =>
     some (some (petName, petLevel, petEXP, skinIdShown, skinIdLink))
   else some none).bind fun petData =>
  (pyGet guild_info "GuildName" (Value.str "N/A")).bind fun guildName =>
  (pyGet guild_info "GuildID" (Value.str "N/A")).bind fun guildID =>
  (pyGet guild_info "GuildLevel" (Value.str "N/A")).bind fun guildLevel =>
  (pyGet guild_info "GuildMember" (Value.str "N/A")).bind fun guildMember =>
  (pyGet guild_info "GuildCapacity" (Value.str "N/A")).bind fun guildCapacity =>
  some { pd := pd, outfitRaw := outfitRaw, weaponRaw := weaponRaw,
         skills := skills, petData := petData,
         guildName := guildName, guildID := guildID, guildLevel := guildLevel,
         guildMember := guildMember, guildCapacity := guildCapacity }

/-- Player-profile section string (source lines 142-149), the f-string
segments joined in order. -/
def basic_info (uid : String) (pd : List (String × Value)) : String :=
  String.join
    ["```diff\n+ Name: ", escape_markdown (pyStr (pyGetD pd "AccountName" (Value.str "Unknown"))),
     "\n+ UID: ", uid,
     "\n+ Level: ", pyStr (pyGetD pd "AccountLevel" (Value.str "N/A")), " 🌟",
     "\n+ Region: ", pyStr (pyGetD pd "AccountRegion" (Value.str "N/A")), " 🌍",
     "\n+ Likes: ", pyStr (pyGetD pd "AccountLikes" (Value.str "N/A")), " ❤️",
     "\n+ Title: [Equipped Title](https://ff-community-api.vercel.app/library/icons?id=",
     pyStr (pyGetD pd "EquippedTittle" (Value.str "")), ")\n```"]

/-- Activity-stats section string (source lines 153-160). -/
def activity_info (pd : List (String × Value)) : String :=
  String.join
    ["```yaml\nVersion: ", pyStr (pyGetD pd "ReleaseVersion" (Value.str "N/A")), " 🛠️",
     "\nBooyah Pass: ", (if truthy (pyGetD pd "AccountBPID" Value.null) then "Elite" else "Free"), " 🎫",
     "\nBR Rank: ", pyStr (pyGetD pd "BrRank" (Value.str "N/A")), " (",
     pyStr (pyGetD pd "BrMaxRank" (Value.str "N/A")), " pts) 🏆",
     "\nCS Rank: ", pyStr (pyGetD pd "CsRank" (Value.str "N/A")), " (",
     pyStr (pyGetD pd "CsMaxRank" (Value.str "N/A")), " pts) 🔫",
     "\nCreated: ", format_timestamp (pyGetD pd "AccountCreateTime" Value.null), " 🕰️",
     "\nLast Login: ", format_timestamp (pyGetD pd "AccountLastLogin" Value.null), " ⏳\n```"]

/-- Equipment section string (source lines 164-167), the only section not
wrapped in a fenced code block. -/
def equipment_value (p : ProfileParts) : String :=
  String.join
    ["\n**🎭 OUTFIT ITEMS**\n", pyOr p.outfitRaw "N/A",
     "\n**🔫 WEAPON LOADOUT**\n", pyOr p.weaponRaw "N/A",
     "\n**🦸 CHARACTER SKILLS**\n", pyStr p.skills]

/-- Pet section string (source lines 172-177), built only when the pet is
marked equipped. -/
def pet_value (t : Value × Value × Value × Value × Value) : String :=
  String.join
    ["```diff\n+ Name: ", pyStr t.1,
     "\n+ Level: ", pyStr t.2.1, " 🐾",
     "\n+ EXP: ", pyStr t.2.2.1, " XP",
     "\n+ Skin: [ID ", pyStr t.2.2.2.1,
     "](https://ff-community-api.vercel.app/library/icons?id=", pyStr t.2.2.2.2, ")\n```"]

/-- Guild section string (source lines 181-186). -/
def guild_value (p : ProfileParts) : String :=
  String.join
    ["```fix\nName: ", escape_markdown (pyStr p.guildName),
     "\nID: ", pyStr p.guildID,
     "\nLevel: ", pyStr p.guildLevel, " 🏰",
     "\nMembers: ", pyStr p.guildMember, "/", pyStr p.guildCapacity, " 👥\n```"]

/-- Assembly of the rich message from the extracted parts (source
lines 127-191); a direct transcription of the embed construction, with the
section f-strings factored into the named functions above. -/
def buildEmbed (uid : String) (p : ProfileParts) : Embed :=
  let avatar := pyGetD p.pd "AccountAvatarId" Value.null
  let banner := pyGetD p.pd "AccountBannerId" Value.null
  { title := "🎮 " ++ escape_markdown (pyStr (pyGetD p.pd "AccountName" (Value.str "Unknown"))) ++
      "\x27s PROFILE"
    color := 0x3498db
    url := "https://ff.garena.com/account/" ++ uid
    thumbnail :=
      if truthy avatar then
        some ("https://ff-community-api.vercel.app/library/icons?id=" ++ pyStr avatar)
      else none
    image :=
      if truthy banner then
        some ("https://ff-community-api.vercel.app/library/icons?id=" ++ pyStr banner)
      else none
    fields :=
      [{ name := "📜 PLAYER PROFILE", value := basic_info uid p.pd, inl := false },
       { name := "📈 ACTIVITY STATS", value := activity_info p.pd, inl := false },
       { name := "🎒 EQUIPMENT", value := equipment_value p, inl := false }] ++
      (match p.petData with
       | some t => [{ name := "🐾 PET COMPANION", value := pet_value t, inl := false }]
       | none => []) ++
      [{ name := "🏰 GUILD DETAILS", value := guild_value p, inl := false }]
    footerText := "🔥 Powered by META\x27s API | 📧 Contact: @jackson_tn"
    footerIcon := "https://emoji.discord.st/emojis/7692_ff.png" }

/-- Compose step of the handler (source lines 119-191): extraction followed
by assembly; `none` models an uncaught exception. -/
def compose (uid : String) (profile_data : Value) : Option Embed :=
  (parseProfile profile_data).map (buildEmbed uid)

/-- Observable actions the command handler performs, in order: sending a
message, invoking the profile fetcher, and editing the placeholder message
(with optional replacement embed). -/
inductive BotAction where
  | send (content : String)
  | fetch (uid : String)
  | edit (content : String) (embed : Option Embed)
deriving Repr

/-- Result of one handler invocation: the ordered action trace, plus whether
an exception escaped the handler (leaving the remaining steps unexecuted). -/
structure HandlerResult where
  actions : List BotAction
  raised : Bool
deriving Repr

/-- Predicate picking out fetcher invocations in a trace. -/
def isFetch : BotAction → Bool
  | .fetch _ => true
  | _ => false

/-- Translation of the `get` command handler (source lines 104-193; named
`getCommand` here because plain `get` is ambiguous in scope) as a
function of the allow-list, the invoking channel, the `uid` argument and the
outcome `fetched` of `get_profile_info` (`none` = fetch failure).  The test
`if not profile_data:` is Python truthiness: it also sends a successfully
fetched but falsy document (for example the empty JSON object) down the
fetch-failure branch. -/
def getCommand (allowed_channel_ids : List Int) (channelId : Int) (uid : String)
    (fetched : Option Value) : HandlerResult :=
  if allowed_channel_ids.contains channelId = false then
    { actions := [BotAction.send "This command can only be used in specific channels."], raised := false }
  else
    let placeholder := BotAction.send ("🔍 Fetching details for UID " ++ uid ++ "...")
    match fetched with
    | none =>
      { actions := [placeholder, BotAction.fetch uid,
                    BotAction.edit "❌ Sorry, there was an issue fetching data. Please try again later." none],
        raised := false }
    | some profile_data =>
      if truthy profile_data = false then
        { actions := [placeholder, BotAction.fetch uid,
                      BotAction.edit "❌ Sorry, there was an issue fetching data. Please try again later." none],
          raised := false }
      else
        match compose uid profile_data with
        | some embed =>
          { actions := [placeholder, BotAction.fetch uid, BotAction.edit "" (some embed)], raised := false }
        | none =>
          { actions := [placeholder, BotAction.fetch uid], raised := true }

/-- Model of Python `int(s)` on a string: optional surrounding whitespace,
an optional sign, then one or more digits (`ValueError` otherwise, modelled
by `none`). -/
def pyIntOfString (s : String) : Option Int :=
  let t := (s.data.dropWhile isWs).reverse.dropWhile isWs |>.reverse
  match t with
  | [] => none
  | '+' :: rest => if rest ≠ [] ∧ rest.all Char.isDigit then some (digitsVal rest) else none
  | '-' :: rest => if rest ≠ [] ∧ rest.all Char.isDigit then some (-(digitsVal rest : Int)) else none
  | l => if l.all Char.isDigit then some (digitsVal l) else none

/-- Errors the bootstrap can abort with (source lines 28-36):
`intConversion` is the `TypeError`/`ValueError` raised by
`int(CHANNEL_ID)` on line 30, the other two are the explicit
`ValueError`s of lines 33-36. -/
inductive StartupError where
  | intConversion
  | missingToken
  | missingChannel
deriving Repr, DecidableEq

/-- Python truthiness of an `os.getenv` result (`None` and `""` are falsy). -/
def truthyEnv : Option String → Bool
  | none => false
  | some s => s != ""

/-- Translation of the bootstrap configuration block (source lines 28-36),
in source order: line 30 builds `ALLOWED_CHANNEL_IDS = [int(CHANNEL_ID)]`
before the two presence checks of lines 33-36 run.  On success it returns
the token and the allow-list. -/
def startup (discord_token : Option String) (channel_id : Option String) :
    Except StartupError (String × List Int) :=
  match (match channel_id with | none => none | some s => pyIntOfString s) with
  | none => Except.error StartupError.intConversion
  | some cid =>
    if truthyEnv discord_token = false then Except.error StartupError.missingToken
    else if truthyEnv channel_id = false then Except.error StartupError.missingChannel
    else Except.ok (discord_token.getD "", [cid])

example : startup (some "tok") none = Except.error StartupError.intConversion := rfl
example : startup none (some "123") = Except.error StartupError.missingToken := rfl
example : startup (some "tok") (some "x1") = Except.error StartupError.intConversion := rfl
example : startup (some "tok") (some " 123 ") = Except.ok ("tok", [123]) := rfl

/-- Per-character effect of `escape_markdown`. -/
def escChar (c : Char) : List Char :=
  if markdown_chars.contains c then ['\\', c] else [c]

/-- Characterisation of `escape_markdown`: its output is the input with each
escaped character replaced by backslash-then-character. -/
theorem escape_markdown_data (s : String) :
    (escape_markdown s).data = s.data.flatMap escChar := by
  unfold escape_markdown
  rw [String.data_join, List.map_map]
  induction s.data with
  | nil => rfl
  | cons c l ih =>
    simp only [List.map_cons, List.flatten_cons, List.flatMap_cons, ih]
    congr 1
    by_cases h : c ∈ markdown_chars <;>
      simp [escChar, h, Function.comp, String.push, String.singleton]

/-- Characters of `markdown_chars` are never the backslash. -/
theorem markdown_chars_ne_backslash {c : Char} (h : c ∈ markdown_chars) :
    (c != '\\') = true := by
  by_contra hc
  have : c = '\\' := by
    simpa using hc
  subst this
  revert h
  decide

/-- Deletion of every backslash from a string. -/
def removeBackslashes (s : String) : String :=
  ⟨s.data.filter (fun c => c != '\\')⟩

/-- C2: for every input string, `escape_markdown` prefixes a backslash to
every occurrence of each character of the fixed set `markdown_chars`
(underscore, asterisk, brackets, parentheses, tilde, backtick,
angle-bracket, hash, plus, hyphen, equals, pipe, braces, period,
exclamation) and leaves every other character unchanged. -/
theorem claim_C2_escape_markdown (s : String) :
    (escape_markdown s).data =
      s.data.flatMap (fun c => if markdown_chars.contains c then ['\\', c] else [c]) := by
  rw [escape_markdown_data]
  rfl

/-- C5: removing all backslashes from the output of `escape_markdown`
yields the same string as removing all backslashes from the input — the
escaping is information-preserving and purely additive. -/
theorem claim_C5_escape_preserving (s : String) :
    removeBackslashes (escape_markdown s) = removeBackslashes s := by
  unfold removeBackslashes
  rw [escape_markdown_data]
  congr 1
  induction s.data with
  | nil => rfl
  | cons c l ih =>
    rw [List.flatMap_cons, List.filter_append, ih, List.filter_cons]
    by_cases h : c ∈ markdown_chars
    · have hne := markdown_chars_ne_backslash h
      simp [escChar, h, hne]
    · by_cases hc : (c != '\\') = true <;> simp [escChar, h, hc]

/-- Helper: `itemLines` succeeds when every element renders. -/
theorem itemLines_isSome (l : List Value)
    (h : ∀ it ∈ l, (itemLine it).isSome = true) : (itemLines l).isSome = true := by
  induction l with
  | nil => rfl
  | cons a l ih =>
    have ha := h a (by simp)
    cases hfa : itemLine a with
    | none => rw [hfa] at ha; simp at ha
    | some b =>
      have ihl := ih (fun it hit => h it (by simp [hit]))
      cases hl : itemLines l with
      | none => rw [hl] at ihl; simp at ihl
      | some bs => simp [itemLines, hfa, hl]

/-- Helper: `itemLines` yields one line per item. -/
theorem itemLines_length :
    ∀ {l : List Value} {res : List String}, itemLines l = some res → res.length = l.length := by
  intro l
  induction l with
  | nil =>
    intro res h
    simp [itemLines] at h
    simp [← h]
  | cons a l ih =>
    intro res h
    cases hfa : itemLine a with
    | none => simp [itemLines, hfa] at h
    | some b =>
      cases hl : itemLines l with
      | none => simp [itemLines, hfa, hl] at h
      | some bs =>
        simp [itemLines, hfa, hl] at h
        simp [← h, ih hl]

/-- C3 counterexample: `format_items` is not total — on a non-empty item
list whose record lacks the `'Items ID'` key it raises a `KeyError`
(modelled by `none`) instead of returning a fallback. -/
theorem claim_C3_counterexample :
    format_items (Value.list [Value.dict []]) "outfit" = none ∧
    ¬ (∀ (items : Value) (category : String), (format_items items category).isSome = true) := by
  constructor
  · rfl
  · intro h
    have := h (Value.list [Value.dict []]) "outfit"
    rw [show format_items (Value.list [Value.dict []]) "outfit" = none from rfl] at this
    simp at this

/-- C3 (amended): `format_timestamp` and `escape_markdown` are total (they
are plain functions into `String` in this model), and `format_items` is
total exactly on the inputs whose records all expose both the
`'Items ID'` and `'Items Icon'` keys — a record lacking either key makes it
raise (`none`).  The empty list still yields the `"N/A"` fallback. -/
theorem claim_C3_amended_totality :
    (∀ (items : List Value) (category : String),
        (∀ it ∈ items, (itemLine it).isSome = true) →
        (format_items (Value.list items) category).isSome = true) ∧
    (∀ category : String, format_items (Value.list []) category = some "N/A") ∧
    (∀ (it : Value) (category : String),
        (pySubscript it "Items ID").isNone = true ∨ (pySubscript it "Items Icon").isNone = true →
        format_items (Value.list [it]) category = none) := by
  refine ⟨?_, ?_, ?_⟩
  · intro items category h
    cases items with
    | nil => rfl
    | cons a l =>
      have hm := itemLines_isSome (a :: l) h
      cases hmm : itemLines (a :: l) with
      | none => rw [hmm] at hm; simp at hm
      | some lines => simp [format_items, truthy, hmm]
  · intro category
    rfl
  · intro it category h
    have hline : itemLine it = none := by
      rcases h with h | h
      · rw [Option.isNone_iff_eq_none] at h
        simp [itemLine, h]
      · rw [Option.isNone_iff_eq_none] at h
        cases hid : pySubscript it "Items ID" <;> simp [itemLine, hid, h]
    simp [format_items, truthy, itemLines, hline]

/-- C3 witness: a well-formed one-item list is rendered without raising. -/
theorem claim_C3_witness :
    (format_items (Value.list [Value.dict [("Items ID", Value.int 7), ("Items Icon", Value.str "u")]])
      "outfit").isSome = true :=
  claim_C3_amended_totality.1
    [Value.dict [("Items ID", Value.int 7), ("Items Icon", Value.str "u")]] "outfit" (by decide)

/-- C8: `format_item_list` returns exactly `"N/A"` for an empty item
sequence (the handler also passes the default `[]` for an absent one), and
for a non-empty sequence whose records render, one display line per item,
in order, joined by newlines. -/
theorem claim_C8_format_item_list :
    (∀ category : String, format_items (Value.list []) category = some "N/A") ∧
    (∀ (l : List Value) (lines : List String) (category : String),
        l.isEmpty = false →
        itemLines l = some lines →
        format_items (Value.list l) category = some (String.intercalate "\n" lines) ∧
        lines.length = l.length) := by
  constructor
  · intro category
    rfl
  · intro l lines category hne hmap
    constructor
    · have ht : truthy (Value.list l) = true := by
        simp [truthy, hne]
      simp [format_items, ht, hmap]
    · exact itemLines_length hmap

/-- C8 witness: a concrete two-item list yields its two lines in order. -/
theorem claim_C8_witness :
    format_items
        (Value.list
          [Value.dict [("Items ID", Value.int 7), ("Items Icon", Value.str "u")],
           Value.dict [("Items ID", Value.int 8), ("Items Icon", Value.str "v")]]) "weapon"
      = some (String.intercalate "\n" ["[7](u)", "[8](v)"]) ∧
    (["[7](u)", "[8](v)"] : List String).length =
      ([Value.dict [("Items ID", Value.int 7), ("Items Icon", Value.str "u")],
        Value.dict [("Items ID", Value.int 8), ("Items Icon", Value.str "v")]] : List Value).length :=
  claim_C8_format_item_list.2
    [Value.dict [("Items ID", Value.int 7), ("Items Icon", Value.str "u")],
     Value.dict [("Items ID", Value.int 8), ("Items Icon", Value.str "v")]]
    ["[7](u)", "[8](v)"] "weapon" rfl rfl

/-- Helper: a date-time produced by `fromtimestamp` passed the constructor
validation. -/
theorem fromtimestamp_valid {n : Int} {dt : DateTime}
    (h : fromtimestamp n = some dt) : dtValid dt = true := by
  unfold fromtimestamp at h
  dsimp only at h
  split at h
  · cases h
    assumption
  · cases h

/-- Helper: a date-time produced by `strptimeFF` passed the constructor
validation. -/
theorem strptimeFF_valid {s : String} {dt : DateTime}
    (h : strptimeFF s = some dt) : dtValid dt = true := by
  unfold strptimeFF at h
  cases hr : strptimeRaw s with
  | none => rw [hr] at h; cases h
  | some dt0 =>
    rw [hr] at h
    simp only [Option.some_bind] at h
    split at h
    · cases h
      assumption
    · cases h

/-- Months never exceed 31 days. -/
theorem daysInMonth_le_31 (y m : Nat) : daysInMonth y m ≤ 31 := by
  unfold daysInMonth
  split
  · split <;> norm_num
  · split <;> norm_num

/-- Shape `DD Month YYYY HH:MM:SS` of a successful `format_timestamp`
output: a zero-padded two-digit day, an English month name, a zero-padded
four-digit year and a zero-padded `HH:MM:SS` clock. -/
def TsShape (str : String) : Prop :=
  ∃ day mon year hour minute second : Nat,
    1 ≤ mon ∧ mon ≤ 12 ∧ day < 100 ∧ year < 10000 ∧ hour < 100 ∧ minute < 100 ∧ second < 100 ∧
    str = pad2 day ++ " " ++ monthName mon ++ " " ++ pad4 year ++ " " ++
          pad2 hour ++ ":" ++ pad2 minute ++ ":" ++ pad2 second

/-- Helper: rendering a validated date-time matches the shape. -/
theorem dtValid_shape {dt : DateTime} (h : dtValid dt = true) : TsShape (strftimeOut dt) := by
  unfold dtValid at h
  simp only [Bool.and_eq_true, decide_eq_true_eq] at h
  obtain ⟨⟨⟨⟨⟨⟨⟨⟨hy1, hy2⟩, hm1⟩, hm2⟩, hd1⟩, hd2⟩, hh⟩, hmin⟩, hsec⟩ := h
  refine ⟨dt.day, dt.month, dt.year, dt.hour, dt.minute, dt.second, hm1, hm2, ?_, ?_, ?_, ?_, ?_, rfl⟩
  · have := daysInMonth_le_31 dt.year dt.month
    omega
  · omega
  · omega
  · omega
  · omega

/-- Acceptance predicate of `format_timestamp`: the input is a numeric
epoch value whose conversion succeeds (booleans are numeric in Python), or
a string accepted by the `strptime` pattern. -/
def tsAccepted : Value → Bool
  | .int n => (fromtimestamp n).isSome
  | .bool b => (fromtimestamp (if b then 1 else 0)).isSome
  | .str s => (strptimeFF s).isSome
  | _ => false

/-- Definitional branch equations of `format_timestamp` and `tsAccepted`,
stated once to avoid unfolding the full match trees in proofs. -/
theorem format_timestamp_int (n : Int) :
    format_timestamp (Value.int n)
      = (match fromtimestamp n with | some dt => strftimeOut dt | none => "Not Available") := rfl

/-- Branch equation of `format_timestamp` on strings. -/
theorem format_timestamp_str (s : String) :
    format_timestamp (Value.str s)
      = (match strptimeFF s with | some dt => strftimeOut dt | none => "Not Available") := rfl

/-- Branch equation of `tsAccepted` on integers. -/
theorem tsAccepted_int (n : Int) : tsAccepted (Value.int n) = (fromtimestamp n).isSome := rfl

/-- Branch equation of `tsAccepted` on strings. -/
theorem tsAccepted_str (s : String) : tsAccepted (Value.str s) = (strptimeFF s).isSome := rfl

/-- C4: `format_timestamp` renders a string of the shape
`DD Month YYYY HH:MM:SS` exactly when the input is a convertible numeric
epoch value or a string matching the `%d/%m/%Y : %I:%M:%S %p` pattern, and
returns the literal `"Not Available"` for every other shape and on every
conversion or parse failure — never raising, being a plain function. -/
theorem claim_C4_format_timestamp (ts : Value) :
    (tsAccepted ts = true → TsShape (format_timestamp ts)) ∧
    (tsAccepted ts = false → format_timestamp ts = "Not Available") := by
  cases ts with
  | int n =>
    cases hf : fromtimestamp n with
    | none =>
      refine ⟨fun h => ?_, fun _ => ?_⟩
      · rw [tsAccepted_int, hf] at h
        cases h
      · rw [format_timestamp_int, hf]
    | some dt =>
      refine ⟨fun _ => ?_, fun h => ?_⟩
      · rw [format_timestamp_int, hf]
        exact dtValid_shape (fromtimestamp_valid hf)
      · rw [tsAccepted_int, hf] at h
        cases h
  | bool b =>
    refine ⟨fun _ => ?_, fun h => ?_⟩
    · cases b with
      | false =>
        rw [show format_timestamp (Value.bool false)
              = strftimeOut { year := 1970, month := 1, day := 1,
                              hour := 0, minute := 0, second := 0 } from by decide]
        exact dtValid_shape (by decide)
      | true =>
        rw [show format_timestamp (Value.bool true)
              = strftimeOut { year := 1970, month := 1, day := 1,
                              hour := 0, minute := 0, second := 1 } from by decide]
        exact dtValid_shape (by decide)
    · cases b with
      | false => exact absurd h (by decide)
      | true => exact absurd h (by decide)
  | str s =>
    cases hf : strptimeFF s with
    | none =>
      refine ⟨fun h => ?_, fun _ => ?_⟩
      · rw [tsAccepted_str, hf] at h
        cases h
      · rw [format_timestamp_str, hf]
    | some dt =>
      refine ⟨fun _ => ?_, fun h => ?_⟩
      · rw [format_timestamp_str, hf]
        exact dtValid_shape (strptimeFF_valid hf)
      · rw [tsAccepted_str, hf] at h
        cases h
  | null => exact ⟨fun h => (nomatch h), fun _ => rfl⟩
  | list l => exact ⟨fun h => (nomatch h), fun _ => rfl⟩
  | dict d => exact ⟨fun h => (nomatch h), fun _ => rfl⟩

/-- C4 witness: the epoch origin is accepted and rendered in shape, and a
non-matching string yields the fallback. -/
theorem claim_C4_witness :
    TsShape (format_timestamp (Value.int 0)) ∧
    format_timestamp (Value.str "hello") = "Not Available" :=
  ⟨(claim_C4_format_timestamp (Value.int 0)).1 rfl,
   (claim_C4_format_timestamp (Value.str "hello")).2 rfl⟩

/-- C6: every fetch failure (non-success HTTP status, transport error,
malformed JSON) collapses to the single generic `none` signal, and the
handler in an allowed channel then edits the placeholder message to the
fixed failure text and stops — the placeholder is never left unedited. -/
theorem claim_C6_fetch_failure (allowed : List Int) (ch : Int) (uid : String)
    (o : FetchOutcome) (hch : allowed.contains ch = true)
    (hfail : ∀ v, o ≠ FetchOutcome.success v) :
    get_profile_info o = none ∧
    getCommand allowed ch uid (get_profile_info o) =
      { actions := [BotAction.send ("🔍 Fetching details for UID " ++ uid ++ "..."),
                    BotAction.fetch uid,
                    BotAction.edit "❌ Sorry, there was an issue fetching data. Please try again later." none],
        raised := false } := by
  have hnone : get_profile_info o = none := by
    cases o with
    | success v => exact absurd rfl (hfail v)
    | httpError c => rfl
    | transportError => rfl
    | malformedJson => rfl
  refine ⟨hnone, ?_⟩
  rw [hnone]
  have hmem : ch ∈ allowed := by simpa using hch
  unfold getCommand
  simp [hmem]

/-- C6 witness: a transport error in an allowed channel. -/
theorem claim_C6_witness :
    get_profile_info FetchOutcome.transportError = none ∧
    getCommand [5] 5 "42" (get_profile_info FetchOutcome.transportError) =
      { actions := [BotAction.send ("🔍 Fetching details for UID " ++ "42" ++ "..."),
                    BotAction.fetch "42",
                    BotAction.edit "❌ Sorry, there was an issue fetching data. Please try again later." none],
        raised := false } :=
  claim_C6_fetch_failure [5] 5 "42" FetchOutcome.transportError rfl
    (fun v h => FetchOutcome.noConfusion h)

/-- C7: an invocation from a channel outside the allow-set produces exactly
the fixed rejection message, never invokes the fetcher (zero fetch actions
in the trace) and sends neither the placeholder nor anything else. -/
theorem claim_C7_unauthorized_channel (allowed : List Int) (ch : Int) (uid : String)
    (fetched : Option Value) (h : allowed.contains ch = false) :
    getCommand allowed ch uid fetched =
      { actions := [BotAction.send "This command can only be used in specific channels."],
        raised := false } ∧
    (getCommand allowed ch uid fetched).actions.countP (fun a => isFetch a) = 0 := by
  have hg : getCommand allowed ch uid fetched =
      { actions := [BotAction.send "This command can only be used in specific channels."],
        raised := false } := by
    have hmem : ch ∉ allowed := by simpa using h
    unfold getCommand
    simp [hmem]
  refine ⟨hg, ?_⟩
  rw [hg]
  rfl

/-- C7 witness: channel 99 against the allow-set `[5]`. -/
theorem claim_C7_witness :
    getCommand [5] 99 "42" (some (Value.dict [])) =
      { actions := [BotAction.send "This command can only be used in specific channels."],
        raised := false } ∧
    (getCommand [5] 99 "42" (some (Value.dict []))).actions.countP (fun a => isFetch a) = 0 :=
  claim_C7_unauthorized_channel [5] 99 "42" (some (Value.dict [])) rfl

/-- C10: with the channel environment variable absent, the bootstrap aborts
with the integer-conversion error of line 30 before any presence check
runs; the dedicated missing-channel validation of lines 35-36 is unreachable
for every input; and the missing-token validation of lines 33-34 is reached
only when the channel variable is set. -/
theorem claim_C10_startup_order :
    (∀ tok : Option String, startup tok none = Except.error StartupError.intConversion) ∧
    (∀ (tok ch : Option String), startup tok ch ≠ Except.error StartupError.missingChannel) ∧
    (∀ (tok ch : Option String),
        startup tok ch = Except.error StartupError.missingToken → ch.isSome = true) := by
  refine ⟨fun tok => rfl, ?_, ?_⟩
  · intro tok ch h
    cases ch with
    | none =>
      rw [show startup tok none = Except.error StartupError.intConversion from rfl] at h
      exact StartupError.noConfusion (Except.error.inj h)
    | some s =>
      unfold startup at h
      dsimp only at h
      cases hp : pyIntOfString s with
      | none =>
        rw [hp] at h
        exact StartupError.noConfusion (Except.error.inj h)
      | some cid =>
        rw [hp] at h
        dsimp only at h
        split at h
        · exact StartupError.noConfusion (Except.error.inj h)
        · split at h
          · rename_i henv
            have hs : s = "" := by
              by_contra hs
              rw [show truthyEnv (some s) = (s != "") from rfl] at henv
              simp at henv
              exact hs henv
            rw [hs] at hp
            exact Option.noConfusion hp
          · exact Except.noConfusion h
  · intro tok ch h
    cases ch with
    | none =>
      rw [show startup tok none = Except.error StartupError.intConversion from rfl] at h
      exact StartupError.noConfusion (Except.error.inj h)
    | some s => rfl

/-- C10 witness: concrete instances of all three conjuncts. -/
theorem claim_C10_witness :
    startup (some "tok") none = Except.error StartupError.intConversion ∧
    startup (some "tok") (some "123") ≠ Except.error StartupError.missingChannel ∧
    (Option.some "123").isSome = true :=
  ⟨claim_C10_startup_order.1 (some "tok"),
   claim_C10_startup_order.2.1 (some "tok") (some "123"),
   claim_C10_startup_order.2.2 none (some "123") rfl⟩

/-- Recomputation of the pet-section condition of source line 171 directly
from the document: `pet_info.get('Equipped?', 0) == 1`. -/
def petEquipped (v : Value) : Option Bool :=
  (asDict v).bind fun pd =>
  (pyGet (pyGetD pd "Pet Information" (Value.dict [])) "Equipped?" (Value.int 0)).bind fun flag =>
  some (pyEqOne flag)

/-- Helper: a successful parse stores pet data exactly when the document
marks the pet as equipped. -/
theorem parseProfile_pet {v : Value} {p : ProfileParts}
    (h : parseProfile v = some p) : petEquipped v = some p.petData.isSome := by
  unfold parseProfile at h
  rw [Option.bind_eq_some] at h
  obtain ⟨pd, hpd, h⟩ := h
  try dsimp only at h
  rw [Option.bind_eq_some] at h
  obtain ⟨li, hli, h⟩ := h
  try dsimp only at h
  rw [Option.bind_eq_some] at h
  obtain ⟨oi, hoi, h⟩ := h
  try dsimp only at h
  rw [Option.bind_eq_some] at h
  obtain ⟨wi, hwi, h⟩ := h
  try dsimp only at h
  rw [Option.bind_eq_some] at h
  obtain ⟨oraw, horaw, h⟩ := h
  try dsimp only at h
  rw [Option.bind_eq_some] at h
  obtain ⟨wraw, hwraw, h⟩ := h
  try dsimp only at h
  rw [Option.bind_eq_some] at h
  obtain ⟨sk, hsk, h⟩ := h
  try dsimp only at h
  rw [Option.bind_eq_some] at h
  obtain ⟨pf, hpf, h⟩ := h
  try dsimp only at h
  rw [Option.bind_eq_some] at h
  obtain ⟨pdat, hpdat, h⟩ := h
  try dsimp only at h
  rw [Option.bind_eq_some] at h
  obtain ⟨gn, hgn, h⟩ := h
  try dsimp only at h
  rw [Option.bind_eq_some] at h
  obtain ⟨gid, hgid, h⟩ := h
  try dsimp only at h
  rw [Option.bind_eq_some] at h
  obtain ⟨gl, hgl, h⟩ := h
  try dsimp only at h
  rw [Option.bind_eq_some] at h
  obtain ⟨gm, hgm, h⟩ := h
  try dsimp only at h
  rw [Option.bind_eq_some] at h
  obtain ⟨gc, hgc, h⟩ := h
  try dsimp only at h
  rw [Option.some.injEq] at h
  subst h
  unfold petEquipped
  rw [hpd, Option.some_bind, hpf, Option.some_bind, Option.some.injEq]
  by_cases hflag : pyEqOne pf = true
  · rw [if_pos hflag] at hpdat
    rw [Option.bind_eq_some] at hpdat
    obtain ⟨a1, ha1, hpdat⟩ := hpdat
    try dsimp only at hpdat
    rw [Option.bind_eq_some] at hpdat
    obtain ⟨a2, ha2, hpdat⟩ := hpdat
    try dsimp only at hpdat
    rw [Option.bind_eq_some] at hpdat
    obtain ⟨a3, ha3, hpdat⟩ := hpdat
    try dsimp only at hpdat
    rw [Option.bind_eq_some] at hpdat
    obtain ⟨a4, ha4, hpdat⟩ := hpdat
    try dsimp only at hpdat
    rw [Option.bind_eq_some] at hpdat
    obtain ⟨a5, ha5, hpdat⟩ := hpdat
    try dsimp only at hpdat
    rw [Option.some.injEq] at hpdat
    rw [← hpdat, hflag]
    rfl
  · rw [if_neg hflag] at hpdat
    rw [Option.some.injEq] at hpdat
    rw [← hpdat]
    simp only [Option.isSome_none]
    simp only [Bool.not_eq_true] at hflag
    rw [hflag]

/-- Names of the embed's text sections, in order. -/
def fieldNames (e : Embed) : List String := e.fields.map (fun f => f.name)

/-- Language hint of the fenced code block wrapping a section value, if the
value is wrapped at all. -/
def fenceOf (s : String) : Option String :=
  if s.data.take 8 = "```diff\n".data then some "diff"
  else if s.data.take 8 = "```yaml\n".data then some "yaml"
  else if s.data.take 7 = "```fix\n".data then some "fix"
  else none

/-- Fence fact for the profile section. -/
theorem fenceOf_basic (uid : String) (pd : List (String × Value)) :
    fenceOf (basic_info uid pd) = some "diff" := by
  have h8 : (basic_info uid pd).data.take 8 = "```diff\n".data := by
    unfold basic_info
    rw [String.data_join]
    simp only [List.map_cons, List.flatten_cons]
    rw [List.take_append_of_le_length (by decide)]
    decide
  unfold fenceOf
  rw [h8, if_pos rfl]

/-- Fence fact for the activity section. -/
theorem fenceOf_activity (pd : List (String × Value)) :
    fenceOf (activity_info pd) = some "yaml" := by
  have h8 : (activity_info pd).data.take 8 = "```yaml\n".data := by
    unfold activity_info
    rw [String.data_join]
    simp only [List.map_cons, List.flatten_cons]
    rw [List.take_append_of_le_length (by decide)]
    decide
  unfold fenceOf
  rw [h8, if_neg (by decide), if_pos rfl]

/-- Fence fact for the equipment section: not fenced. -/
theorem fenceOf_equipment (p : ProfileParts) :
    fenceOf (equipment_value p) = none := by
  have h8 : (equipment_value p).data.take 8 = "\n**🎭 OUT".data := by
    unfold equipment_value
    rw [String.data_join]
    simp only [List.map_cons, List.flatten_cons]
    rw [List.take_append_of_le_length (by decide)]
    decide
  have h7 : (equipment_value p).data.take 7 = "\n**🎭 OU".data := by
    unfold equipment_value
    rw [String.data_join]
    simp only [List.map_cons, List.flatten_cons]
    rw [List.take_append_of_le_length (by decide)]
    decide
  unfold fenceOf
  rw [h8, h7, if_neg (by decide), if_neg (by decide), if_neg (by decide)]

/-- Fence fact for the pet section. -/
theorem fenceOf_pet (t : Value × Value × Value × Value × Value) :
    fenceOf (pet_value t) = some "diff" := by
  have h8 : (pet_value t).data.take 8 = "```diff\n".data := by
    unfold pet_value
    rw [String.data_join]
    simp only [List.map_cons, List.flatten_cons]
    rw [List.take_append_of_le_length (by decide)]
    decide
  unfold fenceOf
  rw [h8, if_pos rfl]

/-- Fence fact for the guild section. -/
theorem fenceOf_guild (p : ProfileParts) :
    fenceOf (guild_value p) = some "fix" := by
  have h8 : (guild_value p).data.take 8 = "```fix\nN".data := by
    unfold guild_value
    rw [String.data_join]
    simp only [List.map_cons, List.flatten_cons]
    rw [List.take_append_of_le_length (by decide)]
    decide
  have h7 : (guild_value p).data.take 7 = "```fix\n".data := by
    unfold guild_value
    rw [String.data_join]
    simp only [List.map_cons, List.flatten_cons]
    rw [List.take_append_of_le_length (by decide)]
    decide
  unfold fenceOf
  rw [h8, h7, if_neg (by decide), if_neg (by decide), if_pos rfl]

/-- C9 (amended): every composed message contains its sections in the exact
order profile, activity, equipment, pet, guild, with the pet section present
exactly when the document marks the pet as equipped; the profile, activity
and guild sections are fenced code blocks with language hints `diff`, `yaml`
and `fix`, the pet section (when present) is also fenced with hint `diff`,
and the equipment section is the single plain section. -/
theorem claim_C9_amended_sections (uid : String) (v : Value) (e : Embed)
    (h : compose uid v = some e) :
    (petEquipped v = some true →
        fieldNames e = ["📜 PLAYER PROFILE", "📈 ACTIVITY STATS", "🎒 EQUIPMENT",
                        "🐾 PET COMPANION", "🏰 GUILD DETAILS"] ∧
        e.fields.map (fun f => fenceOf f.value) =
          [some "diff", some "yaml", none, some "diff", some "fix"]) ∧
    (petEquipped v ≠ some true →
        fieldNames e = ["📜 PLAYER PROFILE", "📈 ACTIVITY STATS", "🎒 EQUIPMENT",
                        "🏰 GUILD DETAILS"] ∧
        e.fields.map (fun f => fenceOf f.value) =
          [some "diff", some "yaml", none, some "fix"]) := by
  unfold compose at h
  rw [Option.map_eq_some'] at h
  obtain ⟨p, hp, he⟩ := h
  subst he
  have hpet := parseProfile_pet hp
  cases hd : p.petData with
  | some tup =>
    have hpe : petEquipped v = some true := by rw [hpet, hd]; rfl
    refine ⟨fun _ => ?_, fun hn => absurd hpe hn⟩
    constructor
    · simp only [fieldNames, buildEmbed, hd]
      rfl
    · simp only [buildEmbed, hd, List.map_append, List.map_cons, List.map_nil,
        fenceOf_basic, fenceOf_activity, fenceOf_equipment, fenceOf_pet, fenceOf_guild]
      rfl
  | none =>
    have hpe : petEquipped v = some false := by rw [hpet, hd]; rfl
    refine ⟨fun hc => ?_, fun _ => ?_⟩
    · rw [hpe] at hc
      simp at hc
    · constructor
      · simp only [fieldNames, buildEmbed, hd]
        rfl
      · simp only [buildEmbed, hd, List.map_append, List.map_cons, List.map_nil,
          fenceOf_basic, fenceOf_activity, fenceOf_equipment, fenceOf_pet, fenceOf_guild]
        rfl

/-- C9 counterexample: for a delivered message with the pet section present
the wrapping is four fenced blocks plus one plain section, never the claimed
three fenced blocks plus two plain sections (the pet section is fenced). -/
theorem claim_C9_counterexample :
    (compose "1" (Value.dict [("Pet Information", Value.dict [("Equipped?", Value.int 1)])])).map
        (fun e => ((e.fields.filter (fun f => (fenceOf f.value).isSome)).length,
                   (e.fields.filter (fun f => (fenceOf f.value).isSome = false)).length))
      = some (4, 1) ∧
    (compose "1" (Value.dict [("Pet Information", Value.dict [("Equipped?", Value.int 1)])])).map
        (fun e => ((e.fields.filter (fun f => (fenceOf f.value).isSome)).length,
                   (e.fields.filter (fun f => (fenceOf f.value).isSome = false)).length))
      ≠ some (3, 2) := by
  constructor
  · rfl
  · decide

/-- C9 witness: a document without an equipped pet composes to the
four-section order with fences `diff`, `yaml`, plain, `fix`. -/
theorem claim_C9_witness :
    (petEquipped (Value.dict [("AccountName", Value.str "Foo")]) = some true →
        fieldNames (buildEmbed "1"
            { pd := [("AccountName", Value.str "Foo")], outfitRaw := "N/A", weaponRaw := "N/A",
              skills := Value.str "N/A", petData := none, guildName := Value.str "N/A",
              guildID := Value.str "N/A", guildLevel := Value.str "N/A",
              guildMember := Value.str "N/A", guildCapacity := Value.str "N/A" }) =
          ["📜 PLAYER PROFILE", "📈 ACTIVITY STATS", "🎒 EQUIPMENT",
           "🐾 PET COMPANION", "🏰 GUILD DETAILS"] ∧
        (buildEmbed "1"
            { pd := [("AccountName", Value.str "Foo")], outfitRaw := "N/A", weaponRaw := "N/A",
              skills := Value.str "N/A", petData := none, guildName := Value.str "N/A",
              guildID := Value.str "N/A", guildLevel := Value.str "N/A",
              guildMember := Value.str "N/A", guildCapacity := Value.str "N/A" }).fields.map
            (fun f => fenceOf f.value) =
          [some "diff", some "yaml", none, some "diff", some "fix"]) ∧
    (petEquipped (Value.dict [("AccountName", Value.str "Foo")]) ≠ some true →
        fieldNames (buildEmbed "1"
            { pd := [("AccountName", Value.str "Foo")], outfitRaw := "N/A", weaponRaw := "N/A",
              skills := Value.str "N/A", petData := none, guildName := Value.str "N/A",
              guildID := Value.str "N/A", guildLevel := Value.str "N/A",
              guildMember := Value.str "N/A", guildCapacity := Value.str "N/A" }) =
          ["📜 PLAYER PROFILE", "📈 ACTIVITY STATS", "🎒 EQUIPMENT", "🏰 GUILD DETAILS"] ∧
        (buildEmbed "1"
            { pd := [("AccountName", Value.str "Foo")], outfitRaw := "N/A", weaponRaw := "N/A",
              skills := Value.str "N/A", petData := none, guildName := Value.str "N/A",
              guildID := Value.str "N/A", guildLevel := Value.str "N/A",
              guildMember := Value.str "N/A", guildCapacity := Value.str "N/A" }).fields.map
            (fun f => fenceOf f.value) =
          [some "diff", some "yaml", none, some "fix"]) :=
  claim_C9_amended_sections "1" (Value.dict [("AccountName", Value.str "Foo")])
    (buildEmbed "1"
      { pd := [("AccountName", Value.str "Foo")], outfitRaw := "N/A", weaponRaw := "N/A",
        skills := Value.str "N/A", petData := none, guildName := Value.str "N/A",
        guildID := Value.str "N/A", guildLevel := Value.str "N/A",
        guildMember := Value.str "N/A", guildCapacity := Value.str "N/A" }) rfl

/-- The message the handler composes for a non-empty profile document that
is missing every optional nested section and account field: all sections are
present and filled with the display placeholders. -/
def placeholderEmbed : Embed :=
  { title := "🎮 Unknown\x27s PROFILE"
    color := 0x3498db
    url := "https://ff.garena.com/account/1722778962"
    thumbnail := none
    image := none
    fields :=
      [{ name := "📜 PLAYER PROFILE",
         value := "```diff\n+ Name: Unknown\n+ UID: 1722778962\n+ Level: N/A 🌟\n+ Region: N/A 🌍\n+ Likes: N/A ❤️\n+ Title: [Equipped Title](https://ff-community-api.vercel.app/library/icons?id=)\n```",
         inl := false },
       { name := "📈 ACTIVITY STATS",
         value := "```yaml\nVersion: N/A 🛠️\nBooyah Pass: Free 🎫\nBR Rank: N/A (N/A pts) 🏆\nCS Rank: N/A (N/A pts) 🔫\nCreated: Not Available 🕰️\nLast Login: Not Available ⏳\n```",
         inl := false },
       { name := "🎒 EQUIPMENT",
         value := "\n**🎭 OUTFIT ITEMS**\nN/A\n**🔫 WEAPON LOADOUT**\nN/A\n**🦸 CHARACTER SKILLS**\nN/A",
         inl := false },
       { name := "🏰 GUILD DETAILS",
         value := "```fix\nName: N/A\nID: N/A\nLevel: N/A 🏰\nMembers: N/A/N/A 👥\n```",
         inl := false }]
    footerText := "🔥 Powered by META\x27s API | 📧 Contact: @jackson_tn"
    footerIcon := "https://emoji.discord.st/emojis/7692_ff.png" }

/-- C1 counterexample: the completely empty profile document is returned by
a successful fetch yet the handler takes the fetch-failure path and edits
the placeholder to the failure text, because `if not profile_data:` tests
Python truthiness and the empty dict is falsy. -/
theorem claim_C1_counterexample :
    getCommand [123] 123 "1722778962" (some (Value.dict [])) =
      { actions := [BotAction.send "🔍 Fetching details for UID 1722778962...",
                    BotAction.fetch "1722778962",
                    BotAction.edit "❌ Sorry, there was an issue fetching data. Please try again later." none],
        raised := false } := rfl

/-- C1 (amended): for every profile document that is non-empty (truthy) but
missing every optional nested section (guild, pet, equipped items) and every
account field, the handler composes and delivers a message whose four
delivered sections are all filled with placeholder values and non-empty; the
completely empty document instead takes the fetch-failure path. -/
theorem claim_C1_amended_placeholders (d : List (String × Value))
    (hne : d.isEmpty = false)
    (h1 : dictLookup d "Guild Information" = none)
    (h2 : dictLookup d "Pet Information" = none)
    (h3 : dictLookup d "Equipped Items" = none)
    (h4 : dictLookup d "AccountName" = none)
    (h5 : dictLookup d "AccountAvatarId" = none)
    (h6 : dictLookup d "AccountBannerId" = none)
    (h7 : dictLookup d "AccountLevel" = none)
    (h8 : dictLookup d "AccountRegion" = none)
    (h9 : dictLookup d "AccountLikes" = none)
    (h10 : dictLookup d "EquippedTittle" = none)
    (h11 : dictLookup d "ReleaseVersion" = none)
    (h12 : dictLookup d "AccountBPID" = none)
    (h13 : dictLookup d "BrRank" = none)
    (h14 : dictLookup d "BrMaxRank" = none)
    (h15 : dictLookup d "CsRank" = none)
    (h16 : dictLookup d "CsMaxRank" = none)
    (h17 : dictLookup d "AccountCreateTime" = none)
    (h18 : dictLookup d "AccountLastLogin" = none) :
    getCommand [123] 123 "1722778962" (some (Value.dict d)) =
      { actions := [BotAction.send "🔍 Fetching details for UID 1722778962...",
                    BotAction.fetch "1722778962",
                    BotAction.edit "" (some placeholderEmbed)],
        raised := false } ∧
    placeholderEmbed.fields.length = 4 ∧
    (∀ f ∈ placeholderEmbed.fields, f.value ≠ "") := by
  have hparse : parseProfile (Value.dict d) =
      some { pd := d, outfitRaw := "N/A", weaponRaw := "N/A", skills := Value.str "N/A",
             petData := none, guildName := Value.str "N/A", guildID := Value.str "N/A",
             guildLevel := Value.str "N/A", guildMember := Value.str "N/A",
             guildCapacity := Value.str "N/A" } := by
    unfold parseProfile
    rw [show asDict (Value.dict d) = some d from rfl, Option.some_bind]
    try dsimp only
    rw [show pyGetD d "Guild Information" (Value.dict []) = Value.dict [] from by
          unfold pyGetD; rw [h1]; rfl]
    rw [show pyGetD d "Pet Information" (Value.dict []) = Value.dict [] from by
          unfold pyGetD; rw [h2]; rfl]
    rw [show pyGetD d "Equipped Items" (Value.dict []) = Value.dict [] from by
          unfold pyGetD; rw [h3]; rfl]
    rfl
  have hbuild : buildEmbed "1722778962"
      { pd := d, outfitRaw := "N/A", weaponRaw := "N/A", skills := Value.str "N/A",
        petData := none, guildName := Value.str "N/A", guildID := Value.str "N/A",
        guildLevel := Value.str "N/A", guildMember := Value.str "N/A",
        guildCapacity := Value.str "N/A" } = placeholderEmbed := by
    unfold buildEmbed basic_info activity_info equipment_value guild_value
    try dsimp only
    rw [show pyGetD d "AccountName" (Value.str "Unknown") = Value.str "Unknown" from by
          unfold pyGetD; rw [h4]; rfl]
    rw [show pyGetD d "AccountAvatarId" Value.null = Value.null from by
          unfold pyGetD; rw [h5]; rfl]
    rw [show pyGetD d "AccountBannerId" Value.null = Value.null from by
          unfold pyGetD; rw [h6]; rfl]
    rw [show pyGetD d "AccountLevel" (Value.str "N/A") = Value.str "N/A" from by
          unfold pyGetD; rw [h7]; rfl]
    rw [show pyGetD d "AccountRegion" (Value.str "N/A") = Value.str "N/A" from by
          unfold pyGetD; rw [h8]; rfl]
    rw [show pyGetD d "AccountLikes" (Value.str "N/A") = Value.str "N/A" from by
          unfold pyGetD; rw [h9]; rfl]
    rw [show pyGetD d "EquippedTittle" (Value.str "") = Value.str "" from by
          unfold pyGetD; rw [h10]; rfl]
    rw [show pyGetD d "ReleaseVersion" (Value.str "N/A") = Value.str "N/A" from by
          unfold pyGetD; rw [h11]; rfl]
    rw [show pyGetD d "AccountBPID" Value.null = Value.null from by
          unfold pyGetD; rw [h12]; rfl]
    rw [show pyGetD d "BrRank" (Value.str "N/A") = Value.str "N/A" from by
          unfold pyGetD; rw [h13]; rfl]
    rw [show pyGetD d "BrMaxRank" (Value.str "N/A") = Value.str "N/A" from by
          unfold pyGetD; rw [h14]; rfl]
    rw [show pyGetD d "CsRank" (Value.str "N/A") = Value.str "N/A" from by
          unfold pyGetD; rw [h15]; rfl]
    rw [show pyGetD d "CsMaxRank" (Value.str "N/A") = Value.str "N/A" from by
          unfold pyGetD; rw [h16]; rfl]
    rw [show pyGetD d "AccountCreateTime" Value.null = Value.null from by
          unfold pyGetD; rw [h17]; rfl]
    rw [show pyGetD d "AccountLastLogin" Value.null = Value.null from by
          unfold pyGetD; rw [h18]; rfl]
    rfl
  have hcompose : compose "1722778962" (Value.dict d) = some placeholderEmbed := by
    unfold compose
    rw [hparse, Option.map_some', hbuild]
  have ht : truthy (Value.dict d) = true := by
    unfold truthy
    try dsimp only
    rw [hne]
    rfl
  refine ⟨?_, rfl, by decide⟩
  unfold getCommand
  rw [if_neg (by decide : ¬(([123] : List Int).contains 123 = false))]
  try dsimp only
  rw [ht, if_neg (by decide : ¬(true = false)), hcompose]
  rfl

/-- C1 witness: a document holding only an unrelated key is composed into
the all-placeholder message. -/
theorem claim_C1_witness :
    getCommand [123] 123 "1722778962" (some (Value.dict [("SomethingElse", Value.int 7)])) =
      { actions := [BotAction.send "🔍 Fetching details for UID 1722778962...",
                    BotAction.fetch "1722778962",
                    BotAction.edit "" (some placeholderEmbed)],
        raised := false } ∧
    placeholderEmbed.fields.length = 4 ∧
    (∀ f ∈ placeholderEmbed.fields, f.value ≠ "") :=
  claim_C1_amended_placeholders [("SomethingElse", Value.int 7)] rfl
    rfl rfl rfl rfl rfl rfl rfl rfl rfl rfl rfl rfl rfl rfl rfl rfl rfl rfl
